import Mathlib

/-!
Verification of `src/lambdas/validate_logic/app.py` (gatekeeperops).

The repository holds a single serverless handler:

```python
def lambda_handler(event, context):
    input_value = event.get("input", "")
    is_valid = isinstance(input_value, str) and len(input_value) > 3
    return {
        "input": input_value,
        "is_valid": is_valid,
        "message": "Valid input" if is_valid else "Invalid input"
    }
```

We embed Python values as an inductive `Value` (strings, integers, floats,
booleans, None, lists, dicts).  A float is carried opaquely by its bit
pattern (a `Nat`): the handler never inspects a float beyond its type, so
only identity of the payload matters.  A Python dict is embedded as an
association list `List (String × Value)`; `dict.get` is `List.lookup` with
a default.  Python `len` on a `str` counts code points, matching Lean's
`String.length`.
-/

/-- Embedding of the Python values the handler can receive or build. -/
inductive Value where
  | str : String → Value
  | int : Int → Value
  | float : Nat → Value
  | bool : Bool → Value
  | none : Value
  | list : List Value → Value
  | dict : List (String × Value) → Value
deriving Repr

/-- A Python dict from string keys, as an association list. -/
abbrev PyDict := List (String × Value)

/-- `d.get(k, default)` on a Python dict: the value at the first binding of
`k`, else the default.  Total: never raises. -/
def dictGet (d : PyDict) (k : String) (default : Value) : Value :=
  (d.lookup k).getD default

/-- `isinstance(v, str)`. -/
def isStr : Value → Bool
  | Value.str _ => true
  | _ => false

/-- `isinstance(input_value, str) and len(input_value) > 3`, the guard on
line 6 of `app.py`.  `len` is only reached when the value is a string,
mirroring Python's short-circuit `and`. -/
def isValidOf : Value → Bool
  | Value.str s => decide (s.length > 3)
  | _ => false

/-- `lambda_handler(event, context)` from `app.py`.  The response dict is
kept as an association list so that its exact key set is part of the
embedding. -/
def lambda_handler (event : PyDict) (context : Value) : PyDict :=
  let input_value := dictGet event "input" (Value.str "")
  let is_valid := isValidOf input_value
  [ ("input", input_value),
    ("is_valid", Value.bool is_valid),
    ("message", Value.str (if is_valid then "Valid input" else "Invalid input")) ]

/-- The handler with every primitive step instrumented in the exception
monad, mirroring Python fault potential: `dict.get` with a default never
raises, `isinstance` never raises, `len` on a string never raises, and the
short-circuit `and` only applies `len` to strings.  Every step therefore
lands in `Except.ok`. -/
def lambda_handlerE (event : PyDict) (context : Value) :
    Except String PyDict := do
  let input_value ← Except.ok (dictGet event "input" (Value.str ""))
  let is_valid ← Except.ok (isValidOf input_value)
  Except.ok
    [ ("input", input_value),
      ("is_valid", Value.bool is_valid),
      ("message", Value.str (if is_valid then "Valid input" else "Invalid input")) ]

/-- Calling the handler twice with the same arguments, for the
idempotence claim. -/
def callTwice (event : PyDict) (context : Value) : PyDict × PyDict :=
  (lambda_handler event context, lambda_handler event context)

/-- C1: the response field `is_valid` is a boolean that is true exactly when
the extracted input value (the event field `input`, else the empty string)
is a string of length strictly greater than 3; any non-string value makes
it false. -/
theorem is_valid_iff_long_string (event : PyDict) (context : Value) :
    ∃ b : Bool, (lambda_handler event context).lookup "is_valid" = some (Value.bool b)
      ∧ (b = true ↔ ∃ s : String,
            dictGet event "input" (Value.str "") = Value.str s ∧ 3 < s.length) := by
  refine ⟨isValidOf (dictGet event "input" (Value.str "")), rfl, ?_⟩
  cases h : dictGet event "input" (Value.str "") <;> simp [isValidOf]

/-- C2: the response field `message` is exactly the string selected by the
boolean `is_valid`: `"Valid input"` when it is true and `"Invalid input"`
when it is false, and no other value. -/
theorem message_matches_is_valid (event : PyDict) (context : Value) :
    ∃ b : Bool, (lambda_handler event context).lookup "is_valid" = some (Value.bool b)
      ∧ (lambda_handler event context).lookup "message"
          = some (Value.str (if b then "Valid input" else "Invalid input")) :=
  ⟨isValidOf (dictGet event "input" (Value.str "")), rfl, rfl⟩

/-- C3 counterexample: on `{"input": "test"}` the handler does NOT return
the response with `is_valid = false` claimed by the spec table: the string
`"test"` has length 4 > 3, so the code marks it valid. -/
theorem test_row_claim_false :
    ¬ (lambda_handler [("input", Value.str "test")] Value.none
        = [("input", Value.str "test"), ("is_valid", Value.bool false),
           ("message", Value.str "Invalid input")]) := by
  intro h
  have hval : lambda_handler [("input", Value.str "test")] Value.none
      = [("input", Value.str "test"), ("is_valid", Value.bool true),
         ("message", Value.str "Valid input")] := rfl
  rw [hval] at h
  simp at h

/-- C3 amended: on `{"input": "test"}` the handler returns
`{"input": "test", "is_valid": true, "message": "Valid input"}`, since
the length of `"test"` is 4, which exceeds 3. -/
theorem test_row_actual :
    lambda_handler [("input", Value.str "test")] Value.none
      = [("input", Value.str "test"), ("is_valid", Value.bool true),
         ("message", Value.str "Valid input")] := rfl

/-- C4: when the event has no `input` key the handler does not fail: it
substitutes the empty string, and the response is
`{"input": "", "is_valid": false, "message": "Invalid input"}`. -/
theorem missing_key_default (event : PyDict) (context : Value)
    (h : event.lookup "input" = Option.none) :
    lambda_handler event context
      = [("input", Value.str ""), ("is_valid", Value.bool false),
         ("message", Value.str "Invalid input")] := by
  simp [lambda_handler, dictGet, h, isValidOf]

/-- Witness for C4 at the empty event mapping. -/
theorem missing_key_default_witness :
    ([] : PyDict).lookup "input" = Option.none
    ∧ lambda_handler [] Value.none
        = [("input", Value.str ""), ("is_valid", Value.bool false),
           ("message", Value.str "Invalid input")] :=
  ⟨rfl, missing_key_default [] Value.none rfl⟩

/-- C5: every primitive step of the handler, instrumented in the exception
monad, succeeds: the handler is total over event mappings and never raises,
returning exactly the pure response. -/
theorem handler_never_raises (event : PyDict) (context : Value) :
    lambda_handlerE event context = Except.ok (lambda_handler event context) := rfl

/-- C6: the response field `input` is exactly the extracted value: the
event value at key `input` when present, else the empty string, with no
transformation applied. -/
theorem input_passthrough (event : PyDict) (context : Value) :
    (lambda_handler event context).lookup "input"
      = some ((event.lookup "input").getD (Value.str "")) := rfl

/-- C7: calling the handler twice with the same event and context yields
identical responses: there is no hidden state. -/
theorem handler_idempotent (event : PyDict) (context : Value) :
    (callTwice event context).1 = (callTwice event context).2 := rfl

/-- C8: the response depends only on the presence and value of the event
field `input`: two invocations agreeing on that field return identical
responses, whatever the other event fields and context values are. -/
theorem response_depends_only_on_input (e1 e2 : PyDict) (c1 c2 : Value)
    (h : e1.lookup "input" = e2.lookup "input") :
    lambda_handler e1 c1 = lambda_handler e2 c2 := by
  simp [lambda_handler, dictGet, h]

/-- Witness for C8: an extra field and a different context value do not
change the response. -/
theorem response_depends_only_on_input_witness :
    ([("input", Value.str "abcd"), ("other", Value.int 7)] : PyDict).lookup "input"
      = ([("input", Value.str "abcd")] : PyDict).lookup "input"
    ∧ lambda_handler [("input", Value.str "abcd"), ("other", Value.int 7)] (Value.int 1)
      = lambda_handler [("input", Value.str "abcd")] Value.none :=
  ⟨rfl, response_depends_only_on_input _ _ _ _ rfl⟩

/-- C9: an event without the key `input` is indistinguishable from the same
event extended with `input` mapped to the empty string. -/
theorem missing_key_eq_empty_string (event : PyDict) (context : Value)
    (h : event.lookup "input" = Option.none) :
    lambda_handler event context
      = lambda_handler (("input", Value.str "") :: event) context := by
  simp [lambda_handler, dictGet, h, List.lookup]

/-- Witness for C9: the empty event versus `{"input": ""}`. -/
theorem missing_key_eq_empty_string_witness :
    ([] : PyDict).lookup "input" = Option.none
    ∧ lambda_handler [] Value.none = lambda_handler [("input", Value.str "")] Value.none :=
  ⟨rfl, missing_key_eq_empty_string [] Value.none rfl⟩

/-- C10: the response has exactly the three keys `input`, `is_valid`,
`message` in that order, and the value at `is_valid` is always a boolean. -/
theorem response_shape (event : PyDict) (context : Value) :
    (lambda_handler event context).map Prod.fst = ["input", "is_valid", "message"]
    ∧ ∃ b : Bool, (lambda_handler event context).lookup "is_valid" = some (Value.bool b) :=
  ⟨rfl, isValidOf (dictGet event "input" (Value.str "")), rfl⟩
